import Mathlib

/-!
Shallow embedding of the bevy_rectray geometry and layout core.

Numeric model: the source computes over `f32`; the geometric definitions
below use `ℚ` (exact arithmetic), with a rotation represented by its
cosine/sine pair so that `Vec2::from_angle(θ)` becomes an explicit unit
vector. NaN-specific behavior of the source (the `Anchor::INHERIT`
sentinel and the padded-rescale guard in the pipeline) is modelled
separately by the float model `F` at the end of the definitions, which
carries `nan` and signed infinities.
-/

namespace Rectray

/-- Entity ids (`bevy::ecs::entity::Entity`) are handles compared only for
identity; modelled as `Nat`. -/
abbrev Entity : Type := Nat

/-- `bevy::math::Vec2` over exact rationals. -/
structure V2 where
  x : ℚ
  y : ℚ
deriving DecidableEq

instance : Add V2 := ⟨fun a b => ⟨a.x + b.x, a.y + b.y⟩⟩

instance : Sub V2 := ⟨fun a b => ⟨a.x - b.x, a.y - b.y⟩⟩

/-- Componentwise product, as glam's `Vec2 * Vec2`. -/
instance : Mul V2 := ⟨fun a b => ⟨a.x * b.x, a.y * b.y⟩⟩

instance : Neg V2 := ⟨fun a => ⟨-a.x, -a.y⟩⟩

/-- Scalar multiple, as glam's `Vec2 * f32`. -/
def V2.smul (k : ℚ) (v : V2) : V2 := ⟨k * v.x, k * v.y⟩

/-- Componentwise minimum (`Vec2::min`). -/
def V2.cmin (a b : V2) : V2 := ⟨min a.x b.x, min a.y b.y⟩

/-- Componentwise maximum (`Vec2::max`). -/
def V2.cmax (a b : V2) : V2 := ⟨max a.x b.x, max a.y b.y⟩

/-- A planar rotation, given by the cosine/sine pair that
`Vec2::from_angle` produces from the stored angle. -/
structure Rot where
  c : ℚ
  s : ℚ
deriving DecidableEq

/-- `Vec2::from_angle(θ).rotate(v)`. -/
def Rot.rotate (r : Rot) (v : V2) : V2 := ⟨r.c * v.x - r.s * v.y, r.s * v.x + r.c * v.y⟩

/-- Angle addition (`self.rotation + other.rotation`) on the cos/sin pair. -/
def Rot.comp (a b : Rot) : Rot := ⟨a.c * b.c - a.s * b.s, a.s * b.c + a.c * b.s⟩

/-- Angle negation: `from_angle (-θ)`. -/
def Rot.negate (r : Rot) : Rot := ⟨r.c, -r.s⟩

/-- The pair actually is a cosine/sine pair of some angle. -/
def Rot.IsUnit (r : Rot) : Prop := r.c ^ 2 + r.s ^ 2 = 1

instance (r : Rot) : Decidable r.IsUnit := inferInstanceAs (Decidable (_ = _))

/-- Angle zero: `from_angle 0`. -/
def Rot.id : Rot := ⟨1, 0⟩

/-- `Anchor` from `src/rect.rs`. The source stores a `Vec2` and uses a NaN
x component as the `INHERIT` sentinel (`is_inherit`); in this exact model
the sentinel is a dedicated constructor, and the NaN mechanics themselves
are verified on the float model `AnchorF` below. `asVec` of `inherit`
(a NaN vector in the source) is given the junk value `(0, 0)`: every
equation proved below uses `asVec` the same way on both sides. -/
inductive Anchor where
  | inherit
  | pt (v : V2)
deriving DecidableEq

/-- `Anchor::is_inherit`. -/
def Anchor.is_inherit : Anchor → Bool
  | .inherit => true
  | .pt _ => false

/-- `Anchor::or`: `if self.is_inherit() { other } else { self }`. -/
def Anchor.or (a b : Anchor) : Anchor := if a.is_inherit then b else a

/-- `Anchor::as_vec` (see the caveat on `Anchor` about `inherit`). -/
def Anchor.asVec : Anchor → V2
  | .inherit => ⟨0, 0⟩
  | .pt v => v

def Anchor.BOTTOM_LEFT : Anchor := .pt ⟨-(1/2), -(1/2)⟩

def Anchor.BOTTOM_CENTER : Anchor := .pt ⟨0, -(1/2)⟩

def Anchor.BOTTOM_RIGHT : Anchor := .pt ⟨1/2, -(1/2)⟩

def Anchor.CENTER_LEFT : Anchor := .pt ⟨-(1/2), 0⟩

def Anchor.CENTER : Anchor := .pt ⟨0, 0⟩

def Anchor.CENTER_RIGHT : Anchor := .pt ⟨1/2, 0⟩

def Anchor.TOP_LEFT : Anchor := .pt ⟨-(1/2), 1/2⟩

def Anchor.TOP_CENTER : Anchor := .pt ⟨0, 1/2⟩

def Anchor.TOP_RIGHT : Anchor := .pt ⟨1/2, 1/2⟩

/-- `bevy::math::Rect`. -/
structure Rect where
  min : V2
  max : V2
deriving DecidableEq

/-- `Rect::contains` (inclusive on both bounds). -/
def Rect.contains (r : Rect) (p : V2) : Bool :=
  decide (r.min.x ≤ p.x) && decide (r.min.y ≤ p.y) &&
  decide (p.x ≤ r.max.x) && decide (p.y ≤ r.max.y)

/-- `Rect::size`. -/
def Rect.size (r : Rect) : V2 := r.max - r.min

/-- `Transform2` from `src/rect.rs`. -/
structure Transform2 where
  translation : V2
  rotation : Rot
  scale : V2
deriving DecidableEq

/-- `Transform2::transform_point2`. -/
def Transform2.transform_point2 (t : Transform2) (point : V2) : V2 :=
  t.rotation.rotate point * t.scale + t.translation

/-- `Transform2::mul`. -/
def Transform2.mul (t other : Transform2) : Transform2 :=
  { translation := t.transform_point2 other.translation
    rotation := Rot.comp t.rotation other.rotation
    scale := t.scale * other.scale }

/-- `Transform2::IDENTITY`. -/
def Transform2.IDENTITY : Transform2 := ⟨⟨0, 0⟩, Rot.id, ⟨1, 1⟩⟩

/-- `Transform2D` from `src/transform.rs` (the fields the math consumes). -/
structure Transform2D where
  anchor : Anchor
  parent_anchor : Anchor
  center : Anchor
  offset : V2
  z : ℚ
  rotation : Rot
  scale : V2
deriving DecidableEq

/-- `Transform2D::get_center`. -/
def Transform2D.get_center (t : Transform2D) : V2 := (t.center.or t.anchor).asVec

/-- `Transform2D::get_parent_anchor`. -/
def Transform2D.get_parent_anchor (t : Transform2D) : V2 := (t.parent_anchor.or t.anchor).asVec

/-- `RotatedRect` from `src/rect.rs`. -/
structure RotatedRect where
  center : V2
  dimension : V2
  rotation : Rot
  z : ℚ
  scale : V2
  frame_entity : Option Entity
deriving DecidableEq

/-- `ParentInfo` from `src/rect.rs`. -/
structure ParentInfo where
  dimension : V2
  center : V2
  anchor : Option V2
  affine : Transform2
  frame : Entity
  frame_rect : Rect

/-- `RotatedRect::anchor`: frame space position of an anchor. -/
def RotatedRect.anchor (r : RotatedRect) (a : Anchor) : V2 :=
  r.rotation.rotate (r.dimension * a.asVec) + r.center

/-- `RotatedRect::local_space`. -/
def RotatedRect.local_space (r : RotatedRect) (position : V2) : V2 :=
  (Rot.negate r.rotation).rotate (position - r.center)

/-- `RotatedRect::transform2_at`. -/
def RotatedRect.transform2_at (r : RotatedRect) (center : V2) : Transform2 :=
  { translation := r.anchor (.pt (-center))
    rotation := r.rotation
    scale := r.scale }

/-- `RotatedRect::under_transform2`. -/
def RotatedRect.under_transform2 (r : RotatedRect) (transform : Transform2) : RotatedRect :=
  { r with
    center := transform.transform_point2 r.center
    rotation := Rot.comp r.rotation transform.rotation
    scale := r.scale * transform.scale }

/-- `RotatedRect::construct2`. -/
def RotatedRect.construct2 (parent : ParentInfo) (transform : Transform2D)
    (parent_anchor anchor : V2) (dimension : V2) (frame : Entity) : RotatedRect :=
  let root := parent.dimension * parent_anchor
  { center := root + transform.offset + (transform.get_center - anchor) * dimension
    dimension := dimension
    rotation := transform.rotation
    z := transform.z
    scale := transform.scale
    frame_entity := some frame }

/-- `RotatedRect::construct`. -/
def RotatedRect.construct (parent : ParentInfo) (transform : Transform2D)
    (dimension : V2) (frame : Entity) : RotatedRect :=
  let parent_anchor := parent.anchor.getD transform.get_parent_anchor
  RotatedRect.construct2 parent transform parent_anchor transform.anchor.asVec dimension frame

/-- `RotatedRect::aabb`. -/
def RotatedRect.aabb (r : RotatedRect) : Rect :=
  let bl := r.anchor Anchor.BOTTOM_LEFT
  let tr := V2.smul 2 r.center - bl
  { min := V2.cmin bl tr, max := V2.cmax bl tr }

/-- `RotatedRect::is_inside`. -/
def RotatedRect.is_inside (r : RotatedRect) (rect : Rect) : Bool :=
  let bl := r.anchor Anchor.BOTTOM_LEFT
  let tr := V2.smul 2 r.center - bl
  rect.contains bl && rect.contains tr

/-- One axis of `nudge_aabb_with` from `src/rect.rs`: the if/else-if chain
applied to one component of the output, given that axis's aabb interval
`[amin, amax]` and bounds interval `[bmin, bmax]`. -/
def nudge1 (amin amax bmin bmax c : ℚ) : ℚ :=
  if amin < bmin then c + (bmin - amin)
  else if amax > bmax then c - (amax - bmax)
  else c

/-- `nudge_aabb_with` from `src/rect.rs`: `nudge1` on each axis. -/
def nudge_aabb_with (output : V2) (aabb bounds : Rect) : V2 :=
  ⟨nudge1 aabb.min.x aabb.max.x bounds.min.x bounds.max.x output.x,
   nudge1 aabb.min.y aabb.max.y bounds.min.y bounds.max.y output.y⟩

/-- `RotatedRect::nudge_inside` (`&mut self` modelled as returning the new rect).
The guard is `aabb.size().cmpgt(bounds.size()).any()`. -/
def RotatedRect.nudge_inside (r : RotatedRect) (bounds : Rect) : RotatedRect :=
  let aabb := r.aabb
  if aabb.size.x > bounds.size.x ∨ aabb.size.y > bounds.size.y then r
  else { r with center := nudge_aabb_with r.center aabb bounds }

/-- `RotatedRect::nudge_inside_ext` (returns the new `value`). -/
def RotatedRect.nudge_inside_ext (r : RotatedRect) (bounds : Rect) (value : V2) : V2 :=
  let aabb := r.aabb
  if aabb.size.x > bounds.size.x ∨ aabb.size.y > bounds.size.y then value
  else nudge_aabb_with value aabb bounds

/-- `AnchorDirection` from `src/tooltip.rs`. -/
inductive AnchorDirection where
  | B | L | T | R | BL | LB | BR | RB | TL | LT | TR | RT
deriving DecidableEq

/-- `AnchorDirection::to_parent_anchor`. -/
def AnchorDirection.to_parent_anchor : AnchorDirection → Anchor
  | .B => .BOTTOM_CENTER
  | .L => .CENTER_LEFT
  | .T => .TOP_CENTER
  | .R => .CENTER_RIGHT
  | .BL => .BOTTOM_RIGHT
  | .LB => .TOP_LEFT
  | .BR => .BOTTOM_LEFT
  | .RB => .TOP_RIGHT
  | .TL => .TOP_RIGHT
  | .LT => .BOTTOM_LEFT
  | .TR => .TOP_LEFT
  | .RT => .BOTTOM_RIGHT

/-- `AnchorDirection::to_anchor`. -/
def AnchorDirection.to_anchor : AnchorDirection → Anchor
  | .B => .TOP_CENTER
  | .L => .CENTER_RIGHT
  | .T => .BOTTOM_CENTER
  | .R => .CENTER_LEFT
  | .BL => .TOP_RIGHT
  | .LB => .TOP_RIGHT
  | .BR => .TOP_LEFT
  | .RB => .TOP_LEFT
  | .TL => .BOTTOM_RIGHT
  | .LT => .BOTTOM_RIGHT
  | .TR => .BOTTOM_LEFT
  | .RT => .BOTTOM_LEFT

/-- `OutOfFrameBehavior` from `src/tooltip.rs`. The source stores a fixed
array `[AnchorDirection; 4]` plus a `len : u8`; modelled as a list plus `len`,
with `iter_anchor_swaps` the `choices[0..len]` slice. -/
inductive OutOfFrameBehavior where
  | none
  | nudge
  | anchorSwap (choices : List AnchorDirection) (len : Nat)

/-- `OutOfFrameBehavior::iter_anchor_swaps`. -/
def OutOfFrameBehavior.iter_anchor_swaps : OutOfFrameBehavior → List AnchorDirection
  | .anchorSwap choices len => choices.take len
  | _ => []

/-- The `construct2` call in the `AnchorSwap` arm of `propagate`
(`src/pipeline.rs`): the rect a candidate direction produces. -/
def swap_candidate (parent : ParentInfo) (transform : Transform2D) (dimension : V2)
    (d : AnchorDirection) : RotatedRect :=
  RotatedRect.construct2 parent transform d.to_parent_anchor.asVec d.to_anchor.asVec
    dimension parent.frame

/-- The `for … break` loop of the `AnchorSwap` arm of `propagate`: the rect of
the first candidate whose frame-space rect is inside the frame rect. -/
def anchor_swap_loop (parent : ParentInfo) (transform : Transform2D) (dimension : V2) :
    List AnchorDirection → Option RotatedRect
  | [] => Option.none
  | d :: rest =>
    let rect := swap_candidate parent transform dimension d
    if (rect.under_transform2 parent.affine).is_inside parent.frame_rect then some rect
    else anchor_swap_loop parent transform dimension rest

/-- The leaf (non-container) rect resolution of `propagate`
(`src/pipeline.rs`, the `match behavior` at lines 143-172). -/
def resolve_leaf_rect (parent : ParentInfo) (transform : Transform2D) (dimension : V2)
    (behavior : OutOfFrameBehavior) : RotatedRect :=
  match behavior with
  | .none => RotatedRect.construct parent transform dimension parent.frame
  | .nudge =>
    let rect := RotatedRect.construct parent transform dimension parent.frame
    let frame_space_rect := rect.under_transform2 parent.affine
    { rect with center := frame_space_rect.nudge_inside_ext parent.frame_rect rect.center }
  | .anchorSwap choices len =>
    let result := RotatedRect.construct parent transform dimension parent.frame
    (anchor_swap_loop parent transform dimension
      (OutOfFrameBehavior.iter_anchor_swaps (.anchorSwap choices len))).getD result

/-- Modelled from the spec claim C5, for comparison with the code: the
AnchorSwap selection with the node's own anchor/parent_anchor pair
implicitly tried first, keeping the first fitting candidate and falling
back to the own rect. -/
def anchor_swap_claimed (parent : ParentInfo) (transform : Transform2D) (dimension : V2)
    (choices : List AnchorDirection) : RotatedRect :=
  ((RotatedRect.construct parent transform dimension parent.frame
      :: choices.map (swap_candidate parent transform dimension)).find?
    (fun r => (r.under_transform2 parent.affine).is_inside parent.frame_rect)).getD
    (RotatedRect.construct parent transform dimension parent.frame)

/-- First-fit selection over the listed candidates only (the own pair is the
fallback, never tested): the amended description of the AnchorSwap arm. -/
def first_fit_swap (parent : ParentInfo) (transform : Transform2D) (dimension : V2)
    (cands : List AnchorDirection) : RotatedRect :=
  match cands.find? (fun d =>
      ((swap_candidate parent transform dimension d).under_transform2
        parent.affine).is_inside parent.frame_rect) with
  | some d => swap_candidate parent transform dimension d
  | Option.none => RotatedRect.construct parent transform dimension parent.frame

/-- `LayoutRange` from `src/layout/container.rs`. -/
inductive LayoutRange where
  | all
  | bounded (min len : Nat)
  | capped (min len : Nat)
  | stepped (step len : Nat)
deriving DecidableEq

/-- `LayoutRange::resolve` (`&mut self` modelled as returning the new range).
The `Stepped` arm computes `total / *len` with Rust `usize` division, which
panics when `len = 0`: the panic is modelled as `none`. `saturating_sub`
is `Nat` subtraction. -/
def LayoutRange.resolve : LayoutRange → Nat → Option LayoutRange
  | .all, _ => some .all
  | .bounded min len, total => some (.bounded (Nat.min min (total - len)) len)
  | .capped min len, total => some (.capped (Nat.min min (total - 1)) len)
  | .stepped step len, total =>
    if len = 0 then Option.none else some (.stepped (Nat.min step (total / len)) len)

/-- `LayoutRange::to_range`, as the pair (start, end). -/
def LayoutRange.to_range : LayoutRange → Nat → Nat × Nat
  | .all, total => (0, total)
  | .bounded min len, total => (min, Nat.min (min + len) total)
  | .capped min len, total => (min, Nat.min (min + len) total)
  | .stepped step len, total => (step * len, Nat.min (step * len + step) total)

/-- An `f32` value for the NaN-sensitive parts of the source: `nan`, a signed
infinity, or an exact finite value (overflow to infinity and signed zeros are
not modelled; the claims exercise only NaN production and propagation). -/
inductive F where
  | nan
  | inf (pos : Bool)
  | val (q : ℚ)
deriving DecidableEq

/-- `f32::is_nan`. -/
def F.isNan : F → Bool
  | .nan => true
  | _ => false

/-- IEEE addition on the modelled values. -/
def F.add : F → F → F
  | .nan, _ => .nan
  | _, .nan => .nan
  | .inf p, .inf q => if p = q then .inf p else .nan
  | .inf p, .val _ => .inf p
  | .val _, .inf p => .inf p
  | .val a, .val b => .val (a + b)

/-- IEEE multiplication on the modelled values. -/
def F.mul : F → F → F
  | .nan, _ => .nan
  | _, .nan => .nan
  | .inf p, .inf q => .inf (p == q)
  | .inf p, .val a => if a = 0 then .nan else .inf (p == decide (0 < a))
  | .val a, .inf p => if a = 0 then .nan else .inf (p == decide (0 < a))
  | .val a, .val b => .val (a * b)

/-- IEEE division on the modelled values: `0.0 / 0.0` is `nan`, a nonzero
finite value over zero is a signed infinity. -/
def F.div : F → F → F
  | .nan, _ => .nan
  | _, .nan => .nan
  | .inf _, .inf _ => .nan
  | .inf p, .val a => .inf (p == decide (0 ≤ a))
  | .val _, .inf _ => .val 0
  | .val a, .val b =>
    if b = 0 then (if a = 0 then .nan else .inf (decide (0 ≤ a))) else .val (a / b)

/-- `Vec2` over the float model. -/
structure V2F where
  x : F
  y : F
deriving DecidableEq

/-- glam's `Vec2::is_nan`: true when ANY component is NaN. -/
def V2F.is_nan (v : V2F) : Bool := v.x.isNan || v.y.isNan

def V2F.add (a b : V2F) : V2F := ⟨F.add a.x b.x, F.add a.y b.y⟩

def V2F.mul (a b : V2F) : V2F := ⟨F.mul a.x b.x, F.mul a.y b.y⟩

def V2F.div (a b : V2F) : V2F := ⟨F.div a.x b.x, F.div a.y b.y⟩

/-- The padded-anchor rescaling step of the container branch of `propagate`
(`src/pipeline.rs` lines 102-107): `padding = layout.padding * 2.0`,
`fac = new_dim / (new_dim + padding)`, and the anchors are multiplied by
`fac` only when `!fac.is_nan()`. -/
def rescale_step (new_dim padding : V2F) (entity_anchors : List (Entity × V2F)) :
    List (Entity × V2F) :=
  let padding2 := V2F.mul padding ⟨F.val 2, F.val 2⟩
  let fac := V2F.div new_dim (V2F.add new_dim padding2)
  if fac.is_nan then entity_anchors
  else entity_anchors.map fun ea => (ea.1, V2F.mul ea.2 fac)

/-- `Anchor` over the float model, as stored in the source: a `Vec2` whose
NaN x component is the `INHERIT` sentinel. -/
structure AnchorF where
  x : F
  y : F
deriving DecidableEq

/-- `Anchor::INHERIT = Self(Vec2::NAN)`. -/
def AnchorF.INHERIT : AnchorF := ⟨F.nan, F.nan⟩

/-- `Anchor::is_inherit`: `self.0.x.is_nan()`. -/
def AnchorF.is_inherit (a : AnchorF) : Bool := a.x.isNan

/-- `Anchor::or` over the float model. -/
def AnchorF.or (a other : AnchorF) : AnchorF := if a.is_inherit then other else a

theorem V2.add_def (a b : V2) : a + b = ⟨a.x + b.x, a.y + b.y⟩ := rfl

theorem V2.sub_def (a b : V2) : a - b = ⟨a.x - b.x, a.y - b.y⟩ := rfl

theorem V2.mul_def (a b : V2) : a * b = ⟨a.x * b.x, a.y * b.y⟩ := rfl

theorem V2.neg_def (a : V2) : -a = ⟨-a.x, -a.y⟩ := rfl

/-- C2. The claim: for every `Stepped{step, len}` range resolved against a
total, `to_range(total)` is the page-sized interval
`[step*len, min(step*len + len, total))`. The code instead ends the interval
at `step*len + step`: evaluated at `step = 0, len = 3, total = 10` the
resolved range is unchanged and `to_range` returns the empty interval
`[0, 0)` where the claim requires the first page `[0, 3)`; at
`step = 2, len = 3` it returns `[6, 8)` (size 2) where the claim requires
`[6, 9)` (size `len = 3`). -/
theorem C2_stepped_to_range_eval :
    LayoutRange.resolve (.stepped 0 3) 10 = some (.stepped 0 3)
    ∧ LayoutRange.to_range (.stepped 0 3) 10 = (0, 0)
    ∧ LayoutRange.resolve (.stepped 2 3) 10 = some (.stepped 2 3)
    ∧ LayoutRange.to_range (.stepped 2 3) 10 = (6, 8)
    ∧ (6, 8) ≠ ((6 : Nat), (9 : Nat)) := by
  refine ⟨rfl, rfl, rfl, rfl, by decide⟩

/-- C3, counterexample. The claim says every `Bounded`/`Capped` range
satisfies `min + len ≤ total` after `resolve(total)`. For
`Capped{min: 2, len: 2}` and `total = 3`, `resolve` only clamps `min` to
`total - 1 = 2`, leaving `min + len = 4 > 3`. -/
theorem C3_min_len_counterexample :
    LayoutRange.resolve (.capped 2 2) 3 = some (.capped 2 2) ∧ ¬(2 + 2 ≤ 3) := by
  refine ⟨rfl, by decide⟩

/-- C3, as amended. After `resolve(total)`: a `Bounded` range has `min`
clamped to `total.saturating_sub(len)`, so `min + len ≤ total` holds
whenever `len ≤ total`; a `Capped` range only has `min` clamped to
`total.saturating_sub(1)` (so `min + len` may exceed `total`), and
`to_range(total)` truncates the end of the interval to `total`.
Misconfigurations are clamped, never rejected: `resolve` succeeds on every
`Bounded` and `Capped` range. -/
theorem C3_resolve_clamps_amended (min len total : Nat) :
    (LayoutRange.resolve (.bounded min len) total
        = some (.bounded (Nat.min min (total - len)) len)
      ∧ (len ≤ total → Nat.min min (total - len) + len ≤ total))
    ∧ (LayoutRange.resolve (.capped min len) total
        = some (.capped (Nat.min min (total - 1)) len)
      ∧ Nat.min min (total - 1) ≤ total - 1
      ∧ (LayoutRange.to_range (.capped (Nat.min min (total - 1)) len) total).2 ≤ total) := by
  refine ⟨⟨rfl, fun h => ?_⟩, rfl, ?_, ?_⟩
  · calc Nat.min min (total - len) + len
        ≤ (total - len) + len := Nat.add_le_add_right (Nat.min_le_right _ _) len
      _ = total := Nat.sub_add_cancel h
  · exact Nat.min_le_right _ _
  · simp only [LayoutRange.to_range]
    exact Nat.min_le_right _ _

/-- C3 witness: the amended statement applied at `min = 7, len = 2,
total = 5` (the clamped `min` is `3`) and at the counterexample inputs. -/
theorem C3_resolve_clamps_amended_witness :
    LayoutRange.resolve (.bounded 7 2) 5 = some (.bounded 3 2) ∧ 3 + 2 ≤ 5 := by
  have h := C3_resolve_clamps_amended 7 2 5
  have h2 := h.1.2 (by omega)
  exact ⟨h.1.1, h2⟩

/-- C4. The claim: `resolve(total)` then `to_range(total)` stays within
`[0, total]` and never panics, including `Stepped` ranges with `len = 0`.
The `Stepped` arm of `resolve` divides by `len`, which panics in Rust when
`len = 0` (modelled as `none`): the first conjunct evaluates the code at
the failing input `Stepped{step: 0, len: 0}`, `total = 5`. The second
conjunct proves the in-bounds part for every case that does not panic. -/
theorem C4_resolve_stepped_zero_len_panics :
    LayoutRange.resolve (.stepped 0 0) 5 = Option.none
    ∧ ∀ r r' total, LayoutRange.resolve r total = some r' →
        (LayoutRange.to_range r' total).1 ≤ total
        ∧ (LayoutRange.to_range r' total).2 ≤ total := by
  refine ⟨rfl, fun r r' total h => ?_⟩
  cases r with
  | all =>
    cases h
    simp [LayoutRange.to_range]
  | bounded min len =>
    cases h
    simp only [LayoutRange.to_range]
    exact ⟨le_trans (Nat.min_le_right min (total - len)) (Nat.sub_le total len),
      Nat.min_le_right _ _⟩
  | capped min len =>
    cases h
    simp only [LayoutRange.to_range]
    exact ⟨le_trans (Nat.min_le_right min (total - 1)) (Nat.sub_le total 1),
      Nat.min_le_right _ _⟩
  | stepped step len =>
    by_cases hlen : len = 0
    · simp [LayoutRange.resolve, hlen] at h
    · simp [LayoutRange.resolve, hlen] at h
      subst h
      simp only [LayoutRange.to_range]
      constructor
      · calc Nat.min step (total / len) * len
            ≤ (total / len) * len := Nat.mul_le_mul_right _ (Nat.min_le_right _ _)
          _ ≤ total := Nat.div_mul_le_self total len
      · exact Nat.min_le_right _ _

/-- C8. In the container branch of the walker, when the rescale factor
`new_dim / (new_dim + 2 * padding)` is NaN on some axis (`Vec2::is_nan` is
true when any component is NaN, e.g. a zero-over-zero division), the
rescaling step is skipped entirely: the child anchors are returned
unscaled, so this step propagates no NaN into them. -/
theorem C8_rescale_nan_skip (new_dim padding : V2F) (anchors : List (Entity × V2F))
    (h : (V2F.div new_dim (V2F.add new_dim (V2F.mul padding ⟨F.val 2, F.val 2⟩))).is_nan
      = true) :
    rescale_step new_dim padding anchors = anchors := by
  simp only [rescale_step, h, if_true]

/-- C8 witness: a degenerate container of dimension `(0, 0)` with padding
`(0, 0)` produces a `0/0` NaN factor on both axes, and the anchor list is
returned unchanged. -/
theorem C8_rescale_nan_skip_witness :
    rescale_step ⟨F.val 0, F.val 0⟩ ⟨F.val 0, F.val 0⟩ [(0, ⟨F.val (1/2), F.val 0⟩)]
      = [(0, ⟨F.val (1/2), F.val 0⟩)] :=
  C8_rescale_nan_skip ⟨F.val 0, F.val 0⟩ ⟨F.val 0, F.val 0⟩ _
    (by norm_num [V2F.div, V2F.add, V2F.mul, V2F.is_nan, F.div, F.add, F.mul, F.isNan])

/-- C10. `Anchor::or(fallback)` returns the fallback exactly when the x
component of `self` is NaN (`is_inherit` inspects only x): the full
`INHERIT` sentinel `(NaN, NaN)` falls back, while an anchor whose y
component is NaN but whose x is finite is returned unchanged. -/
theorem C10_anchor_or_inherit (a b : AnchorF) :
    (a.x.isNan = true → a.or b = b)
    ∧ (a.x.isNan = false → a.or b = a)
    ∧ AnchorF.INHERIT.or b = b
    ∧ ∀ q : ℚ, (AnchorF.mk (F.val q) F.nan).or b = ⟨F.val q, F.nan⟩ := by
  refine ⟨fun h => ?_, fun h => ?_, ?_, fun q => ?_⟩
  · simp [AnchorF.or, AnchorF.is_inherit, h]
  · simp [AnchorF.or, AnchorF.is_inherit, h]
  · rfl
  · rfl

/-- C10 witness: the sentinel falls back and a finite-x anchor with NaN y
does not, at concrete values. -/
theorem C10_anchor_or_inherit_witness :
    AnchorF.INHERIT.or ⟨F.val 1, F.val 2⟩ = ⟨F.val 1, F.val 2⟩
    ∧ (AnchorF.mk (F.val 3) F.nan).or ⟨F.val 1, F.val 2⟩ = ⟨F.val 3, F.nan⟩ :=
  ⟨(C10_anchor_or_inherit AnchorF.INHERIT ⟨F.val 1, F.val 2⟩).1 rfl,
   (C10_anchor_or_inherit ⟨F.val 3, F.nan⟩ ⟨F.val 1, F.val 2⟩).2.1 rfl⟩

/-- C1. For every `ParentInfo` with no forced anchor (`anchor = None`),
`RotatedRect::construct` returns the rect whose center is
`root + offset + (center.or(anchor) - anchor) * dimension` with
`parent_anchor = transform.parent_anchor.or(transform.anchor)` and
`root = parent.dimension * parent_anchor`, and whose dimension, rotation,
z and scale are copied from the inputs (the frame entity being the given
frame). -/
theorem C1_construct_center_formula (parent : ParentInfo) (t : Transform2D)
    (dimension : V2) (frame : Entity) (h : parent.anchor = Option.none) :
    RotatedRect.construct parent t dimension frame =
      { center := parent.dimension * (t.parent_anchor.or t.anchor).asVec + t.offset
          + ((t.center.or t.anchor).asVec - t.anchor.asVec) * dimension
        dimension := dimension
        rotation := t.rotation
        z := t.z
        scale := t.scale
        frame_entity := some frame } := by
  simp [RotatedRect.construct, RotatedRect.construct2, h,
    Transform2D.get_parent_anchor, Transform2D.get_center]

/-- C1 witness: a parent of dimension `(10, 20)` with no forced anchor, a
child anchored at `CENTER_LEFT` against the parent's `TOP_RIGHT` with
offset `(1, 2)` and dimension `(4, 6)` is centered at
`(10, 20) * (1/2, 1/2) + (1, 2) = (6, 12)`. -/
theorem C1_construct_center_formula_witness :
    RotatedRect.construct
        ⟨⟨10, 20⟩, ⟨0, 0⟩, Option.none, Transform2.IDENTITY, 3, ⟨⟨-100, -100⟩, ⟨100, 100⟩⟩⟩
        ⟨Anchor.pt ⟨-(1/2), 0⟩, Anchor.pt ⟨1/2, 1/2⟩, Anchor.inherit, ⟨1, 2⟩, 1/100,
          Rot.id, ⟨1, 1⟩⟩
        ⟨4, 6⟩ 3
      = ⟨⟨6, 12⟩, ⟨4, 6⟩, Rot.id, 1/100, ⟨1, 1⟩, some 3⟩ := by
  rw [C1_construct_center_formula _ _ _ _ rfl]
  norm_num [Anchor.or, Anchor.asVec, Anchor.is_inherit, V2.add_def, V2.sub_def, V2.mul_def]

/-- C7. For every `RotatedRect` `R` whose stored rotation is a genuine
angle (its cosine/sine pair is a unit vector) and every anchor `A`,
`R.local_space(R.anchor(A))` equals `R.dimension * A` exactly — the
real-arithmetic reading of the claim. -/
theorem C7_local_space_anchor_roundtrip (r : RotatedRect) (a : Anchor)
    (h : r.rotation.IsUnit) :
    r.local_space (r.anchor a) = r.dimension * a.asVec := by
  rcases r with ⟨rc, rd, rot, rz, rs, rf⟩
  rcases rot with ⟨c, s⟩
  simp only [Rot.IsUnit] at h
  simp only [RotatedRect.local_space, RotatedRect.anchor, Rot.rotate, Rot.negate,
    V2.add_def, V2.sub_def, V2.mul_def, V2.mk.injEq]
  constructor
  · linear_combination (rd.x * (Anchor.asVec a).x) * h
  · linear_combination (rd.y * (Anchor.asVec a).y) * h

/-- C7 witness: the roundtrip at center `(1, 2)`, dimension `(3, 4)`,
rotation pair `(3/5, 4/5)` and anchor `(1/2, -1/2)`. -/
theorem C7_local_space_anchor_roundtrip_witness :
    RotatedRect.local_space ⟨⟨1, 2⟩, ⟨3, 4⟩, ⟨3/5, 4/5⟩, 0, ⟨1, 1⟩, Option.none⟩
        (RotatedRect.anchor ⟨⟨1, 2⟩, ⟨3, 4⟩, ⟨3/5, 4/5⟩, 0, ⟨1, 1⟩, Option.none⟩
          (Anchor.pt ⟨1/2, -(1/2)⟩))
      = (⟨3, 4⟩ : V2) * (Anchor.pt ⟨1/2, -(1/2)⟩).asVec :=
  C7_local_space_anchor_roundtrip _ _ (by norm_num [Rot.IsUnit])

/-- C9. The Nudge out-of-frame correction modifies only the translation:
`nudge_inside` keeps the rect's dimension, rotation, z, scale and
frame_entity, and the walker's Nudge arm (which uses `nudge_inside_ext` on
the constructed rect's center) produces a rect agreeing with the plainly
constructed rect on all fields but the center. -/
theorem C9_nudge_translation_only (r : RotatedRect) (bounds : Rect)
    (parent : ParentInfo) (transform : Transform2D) (dimension : V2) :
    ((r.nudge_inside bounds).dimension = r.dimension
      ∧ (r.nudge_inside bounds).rotation = r.rotation
      ∧ (r.nudge_inside bounds).z = r.z
      ∧ (r.nudge_inside bounds).scale = r.scale
      ∧ (r.nudge_inside bounds).frame_entity = r.frame_entity)
    ∧ ((resolve_leaf_rect parent transform dimension .nudge).dimension
          = (RotatedRect.construct parent transform dimension parent.frame).dimension
      ∧ (resolve_leaf_rect parent transform dimension .nudge).rotation
          = (RotatedRect.construct parent transform dimension parent.frame).rotation
      ∧ (resolve_leaf_rect parent transform dimension .nudge).z
          = (RotatedRect.construct parent transform dimension parent.frame).z
      ∧ (resolve_leaf_rect parent transform dimension .nudge).scale
          = (RotatedRect.construct parent transform dimension parent.frame).scale
      ∧ (resolve_leaf_rect parent transform dimension .nudge).frame_entity
          = (RotatedRect.construct parent transform dimension parent.frame).frame_entity) := by
  constructor
  · by_cases hc : r.aabb.size.x > bounds.size.x ∨ r.aabb.size.y > bounds.size.y
    · simp [RotatedRect.nudge_inside, hc]
    · simp [RotatedRect.nudge_inside, hc]
  · simp [resolve_leaf_rect]

theorem anchor_swap_claimed_own_fits (parent : ParentInfo) (transform : Transform2D)
    (dimension : V2) (choices : List AnchorDirection)
    (h : ((RotatedRect.construct parent transform dimension parent.frame).under_transform2
        parent.affine).is_inside parent.frame_rect = true) :
    anchor_swap_claimed parent transform dimension choices
      = RotatedRect.construct parent transform dimension parent.frame := by
  have hfind : List.find?
      (fun r => (r.under_transform2 parent.affine).is_inside parent.frame_rect)
      (RotatedRect.construct parent transform dimension parent.frame
        :: choices.map (swap_candidate parent transform dimension))
      = some (RotatedRect.construct parent transform dimension parent.frame) :=
    List.find?_cons_of_pos _ h
  unfold anchor_swap_claimed
  rw [hfind]
  rfl

theorem anchor_swap_loop_eq_find (parent : ParentInfo) (transform : Transform2D)
    (dimension : V2) (l : List AnchorDirection) :
    anchor_swap_loop parent transform dimension l
      = (l.find? (fun d =>
          ((swap_candidate parent transform dimension d).under_transform2
            parent.affine).is_inside parent.frame_rect)).map
          (swap_candidate parent transform dimension) := by
  induction l with
  | nil => rfl
  | cons d rest ih =>
    simp only [anchor_swap_loop, List.find?]
    by_cases hd : ((swap_candidate parent transform dimension d).under_transform2
        parent.affine).is_inside parent.frame_rect = true
    · simp [hd]
    · simp only [Bool.not_eq_true] at hd
      simp [hd, ih]

set_option maxHeartbeats 1000000 in
/-- C5, counterexample. The claim says the node's own anchor/parent_anchor
pair is implicitly the first candidate tested. The code never tests the
own pair: it is only the fallback when no listed candidate fits. At a
parent of dimension `(10, 10)` with frame rect `[-100, 100]²`, a centered
node of dimension `(2, 2)` whose own rect (center `(0, 0)`) fits, and a
single swap candidate `B` whose rect (center `(0, -6)`) also fits, the
code keeps the `B` candidate while the claimed own-pair-first selection
keeps the own rect. -/
theorem C5_own_pair_counterexample :
    resolve_leaf_rect
        ⟨⟨10, 10⟩, ⟨0, 0⟩, Option.none, Transform2.IDENTITY, 0, ⟨⟨-100, -100⟩, ⟨100, 100⟩⟩⟩
        ⟨Anchor.pt ⟨0, 0⟩, Anchor.inherit, Anchor.pt ⟨0, 0⟩, ⟨0, 0⟩, 1/100, Rot.id, ⟨1, 1⟩⟩
        ⟨2, 2⟩ (.anchorSwap [AnchorDirection.B] 1)
        = ⟨⟨0, -6⟩, ⟨2, 2⟩, Rot.id, 1/100, ⟨1, 1⟩, some 0⟩
    ∧ anchor_swap_claimed
        ⟨⟨10, 10⟩, ⟨0, 0⟩, Option.none, Transform2.IDENTITY, 0, ⟨⟨-100, -100⟩, ⟨100, 100⟩⟩⟩
        ⟨Anchor.pt ⟨0, 0⟩, Anchor.inherit, Anchor.pt ⟨0, 0⟩, ⟨0, 0⟩, 1/100, Rot.id, ⟨1, 1⟩⟩
        ⟨2, 2⟩ [AnchorDirection.B]
        = ⟨⟨0, 0⟩, ⟨2, 2⟩, Rot.id, 1/100, ⟨1, 1⟩, some 0⟩
    ∧ resolve_leaf_rect
        ⟨⟨10, 10⟩, ⟨0, 0⟩, Option.none, Transform2.IDENTITY, 0, ⟨⟨-100, -100⟩, ⟨100, 100⟩⟩⟩
        ⟨Anchor.pt ⟨0, 0⟩, Anchor.inherit, Anchor.pt ⟨0, 0⟩, ⟨0, 0⟩, 1/100, Rot.id, ⟨1, 1⟩⟩
        ⟨2, 2⟩ (.anchorSwap [AnchorDirection.B] 1)
      ≠ anchor_swap_claimed
        ⟨⟨10, 10⟩, ⟨0, 0⟩, Option.none, Transform2.IDENTITY, 0, ⟨⟨-100, -100⟩, ⟨100, 100⟩⟩⟩
        ⟨Anchor.pt ⟨0, 0⟩, Anchor.inherit, Anchor.pt ⟨0, 0⟩, ⟨0, 0⟩, 1/100, Rot.id, ⟨1, 1⟩⟩
        ⟨2, 2⟩ [AnchorDirection.B] := by
  have h1 : resolve_leaf_rect
      ⟨⟨10, 10⟩, ⟨0, 0⟩, Option.none, Transform2.IDENTITY, 0, ⟨⟨-100, -100⟩, ⟨100, 100⟩⟩⟩
      ⟨Anchor.pt ⟨0, 0⟩, Anchor.inherit, Anchor.pt ⟨0, 0⟩, ⟨0, 0⟩, 1/100, Rot.id, ⟨1, 1⟩⟩
      ⟨2, 2⟩ (.anchorSwap [AnchorDirection.B] 1)
      = ⟨⟨0, -6⟩, ⟨2, 2⟩, Rot.id, 1/100, ⟨1, 1⟩, some 0⟩ := by
    norm_num [resolve_leaf_rect, OutOfFrameBehavior.iter_anchor_swaps, anchor_swap_loop,
      swap_candidate, RotatedRect.construct, RotatedRect.construct2,
      Transform2D.get_center, Transform2D.get_parent_anchor, Anchor.or, Anchor.is_inherit,
      Anchor.asVec, AnchorDirection.to_anchor, AnchorDirection.to_parent_anchor,
      Anchor.TOP_CENTER, Anchor.BOTTOM_CENTER, Anchor.BOTTOM_LEFT,
      RotatedRect.under_transform2, Transform2.transform_point2, Rot.rotate, Rot.comp,
      Rot.id, Transform2.IDENTITY, RotatedRect.is_inside, RotatedRect.anchor,
      Rect.contains, V2.smul, V2.add_def, V2.sub_def, V2.mul_def, Option.getD]
  have hcon : RotatedRect.construct
      ⟨⟨10, 10⟩, ⟨0, 0⟩, Option.none, Transform2.IDENTITY, 0, ⟨⟨-100, -100⟩, ⟨100, 100⟩⟩⟩
      ⟨Anchor.pt ⟨0, 0⟩, Anchor.inherit, Anchor.pt ⟨0, 0⟩, ⟨0, 0⟩, 1/100, Rot.id, ⟨1, 1⟩⟩
      ⟨2, 2⟩ 0
      = ⟨⟨0, 0⟩, ⟨2, 2⟩, Rot.id, 1/100, ⟨1, 1⟩, some 0⟩ := by
    norm_num [RotatedRect.construct, RotatedRect.construct2, Transform2D.get_center,
      Transform2D.get_parent_anchor, Anchor.or, Anchor.is_inherit, Anchor.asVec,
      Rot.id, V2.add_def, V2.sub_def, V2.mul_def, Option.getD]
  have hfit : ((RotatedRect.construct
        ⟨⟨10, 10⟩, ⟨0, 0⟩, Option.none, Transform2.IDENTITY, 0, ⟨⟨-100, -100⟩, ⟨100, 100⟩⟩⟩
        ⟨Anchor.pt ⟨0, 0⟩, Anchor.inherit, Anchor.pt ⟨0, 0⟩, ⟨0, 0⟩, 1/100, Rot.id, ⟨1, 1⟩⟩
        ⟨2, 2⟩ 0).under_transform2 Transform2.IDENTITY).is_inside
        ⟨⟨-100, -100⟩, ⟨100, 100⟩⟩ = true := by
    rw [hcon]
    norm_num [RotatedRect.under_transform2, Transform2.transform_point2, Rot.rotate,
      Rot.comp, Rot.id, Transform2.IDENTITY, RotatedRect.is_inside, RotatedRect.anchor,
      Rect.contains, V2.smul, V2.add_def, V2.sub_def, V2.mul_def, Anchor.asVec,
      Anchor.BOTTOM_LEFT, decide_eq_true_eq]
  have h2 : anchor_swap_claimed
      ⟨⟨10, 10⟩, ⟨0, 0⟩, Option.none, Transform2.IDENTITY, 0, ⟨⟨-100, -100⟩, ⟨100, 100⟩⟩⟩
      ⟨Anchor.pt ⟨0, 0⟩, Anchor.inherit, Anchor.pt ⟨0, 0⟩, ⟨0, 0⟩, 1/100, Rot.id, ⟨1, 1⟩⟩
      ⟨2, 2⟩ [AnchorDirection.B]
      = ⟨⟨0, 0⟩, ⟨2, 2⟩, Rot.id, 1/100, ⟨1, 1⟩, some 0⟩ := by
    rw [anchor_swap_claimed_own_fits _ _ _ _ hfit]
    exact hcon
  refine ⟨h1, h2, ?_⟩
  rw [h1, h2]
  simp only [ne_eq, RotatedRect.mk.injEq, V2.mk.injEq]
  norm_num

/-- C5, as amended. For a leaf with AnchorSwap policy the resulting rect is
the one constructed from the first LISTED candidate (in list order) whose
frame-space rect lies entirely inside the frame's bounds; the node's own
Transform2D rect is only the fallback used when no listed candidate fits —
the own pair is not itself tested. In particular, if exactly one listed
candidate fits, it is selected regardless of its position in the list. -/
theorem C5_anchor_swap_first_fit (parent : ParentInfo) (transform : Transform2D)
    (dimension : V2) (choices : List AnchorDirection) (len : Nat) :
    resolve_leaf_rect parent transform dimension (.anchorSwap choices len)
      = first_fit_swap parent transform dimension (choices.take len) := by
  simp only [resolve_leaf_rect, OutOfFrameBehavior.iter_anchor_swaps,
    anchor_swap_loop_eq_find, first_fit_swap]
  cases hfind : List.find? (fun d =>
      ((swap_candidate parent transform dimension d).under_transform2
        parent.affine).is_inside parent.frame_rect) (choices.take len) with
  | none => simp [hfind]
  | some d => simp [hfind]

theorem min_shift_pair (e c : ℚ) : min (e + c) (2 * c - (e + c)) = min e (-e) + c := by
  rcases le_total e (-e) with h | h
  · rw [min_eq_left (by linarith), min_eq_left h]
  · rw [min_eq_right (by linarith), min_eq_right h]
    ring

theorem max_shift_pair (e c : ℚ) : max (e + c) (2 * c - (e + c)) = max e (-e) + c := by
  rcases le_total e (-e) with h | h
  · rw [max_eq_right (by linarith), max_eq_right h]
    ring
  · rw [max_eq_left (by linarith), max_eq_left h]

theorem aabb_char (r : RotatedRect) :
    r.aabb =
      ⟨⟨min ((r.rotation.rotate (r.dimension * Anchor.BOTTOM_LEFT.asVec)).x)
            (-(r.rotation.rotate (r.dimension * Anchor.BOTTOM_LEFT.asVec)).x) + r.center.x,
        min ((r.rotation.rotate (r.dimension * Anchor.BOTTOM_LEFT.asVec)).y)
            (-(r.rotation.rotate (r.dimension * Anchor.BOTTOM_LEFT.asVec)).y) + r.center.y⟩,
       ⟨max ((r.rotation.rotate (r.dimension * Anchor.BOTTOM_LEFT.asVec)).x)
            (-(r.rotation.rotate (r.dimension * Anchor.BOTTOM_LEFT.asVec)).x) + r.center.x,
        max ((r.rotation.rotate (r.dimension * Anchor.BOTTOM_LEFT.asVec)).y)
            (-(r.rotation.rotate (r.dimension * Anchor.BOTTOM_LEFT.asVec)).y) + r.center.y⟩⟩ := by
  simp only [RotatedRect.aabb, RotatedRect.anchor, V2.cmin, V2.cmax, V2.smul,
    V2.add_def, V2.sub_def, Rect.mk.injEq, V2.mk.injEq]
  exact ⟨⟨min_shift_pair _ _, min_shift_pair _ _⟩, max_shift_pair _ _, max_shift_pair _ _⟩

theorem aabb_shift (r : RotatedRect) (c : V2) :
    ({ r with center := c } : RotatedRect).aabb.min.x = r.aabb.min.x + (c.x - r.center.x)
    ∧ ({ r with center := c } : RotatedRect).aabb.max.x = r.aabb.max.x + (c.x - r.center.x)
    ∧ ({ r with center := c } : RotatedRect).aabb.min.y = r.aabb.min.y + (c.y - r.center.y)
    ∧ ({ r with center := c } : RotatedRect).aabb.max.y = r.aabb.max.y + (c.y - r.center.y) := by
  simp only [aabb_char]
  refine ⟨?_, ?_, ?_, ?_⟩ <;> ring

theorem nudge1_spec (amin amax bmin bmax c : ℚ) (hsize : amax - amin ≤ bmax - bmin) :
    (bmin ≤ amin + (nudge1 amin amax bmin bmax c - c)
      ∧ amax + (nudge1 amin amax bmin bmax c - c) ≤ bmax)
    ∧ (bmin ≤ amin → amax ≤ bmax → nudge1 amin amax bmin bmax c = c)
    ∧ ∀ t : ℚ, bmin ≤ amin + t → amax + t ≤ bmax →
        |nudge1 amin amax bmin bmax c - c| ≤ |t| := by
  unfold nudge1
  by_cases h1 : amin < bmin
  · rw [if_pos h1]
    refine ⟨⟨by linarith, by linarith⟩, fun hb _ => absurd h1 (not_lt.mpr hb),
      fun t ht1 ht2 => ?_⟩
    have hd : c + (bmin - amin) - c = bmin - amin := by ring
    rw [hd, abs_of_pos (by linarith)]
    calc bmin - amin ≤ t := by linarith
      _ ≤ |t| := le_abs_self t
  · rw [if_neg h1]
    by_cases h2 : amax > bmax
    · rw [if_pos h2]
      refine ⟨⟨by linarith, by linarith⟩, fun _ hb => absurd h2 (not_lt.mpr hb),
        fun t ht1 ht2 => ?_⟩
      have hd : c - (amax - bmax) - c = -(amax - bmax) := by ring
      rw [hd, abs_of_neg (by linarith)]
      calc -(-(amax - bmax)) = amax - bmax := by ring
        _ ≤ -t := by linarith
        _ ≤ |t| := neg_le_abs t
    · rw [if_neg h2]
      refine ⟨⟨by linarith, by linarith⟩, fun _ _ => by ring, fun t _ _ => ?_⟩
      have hz : c - c = 0 := by ring
      rw [hz, abs_zero]
      exact abs_nonneg t

/-- C6. `nudge_inside(bounds)`: if the rect's aabb is strictly larger than
the bounds on either axis the rect is unchanged; otherwise the nudged
rect's aabb lies fully inside the bounds, the per-axis translation of the
center is zero on an axis where the aabb already fits inside the bounds,
and on each axis it is the minimal translation (in absolute value) that
brings that axis's aabb interval inside the bounds. -/
theorem C6_nudge_inside_minimal (r : RotatedRect) (bounds : Rect) :
    ((r.aabb.size.x > bounds.size.x ∨ r.aabb.size.y > bounds.size.y) →
        r.nudge_inside bounds = r)
    ∧ (r.aabb.size.x ≤ bounds.size.x → r.aabb.size.y ≤ bounds.size.y →
        (bounds.min.x ≤ (r.nudge_inside bounds).aabb.min.x
          ∧ (r.nudge_inside bounds).aabb.max.x ≤ bounds.max.x
          ∧ bounds.min.y ≤ (r.nudge_inside bounds).aabb.min.y
          ∧ (r.nudge_inside bounds).aabb.max.y ≤ bounds.max.y)
        ∧ (bounds.min.x ≤ r.aabb.min.x → r.aabb.max.x ≤ bounds.max.x →
            (r.nudge_inside bounds).center.x = r.center.x)
        ∧ (bounds.min.y ≤ r.aabb.min.y → r.aabb.max.y ≤ bounds.max.y →
            (r.nudge_inside bounds).center.y = r.center.y)
        ∧ (∀ t : ℚ, bounds.min.x ≤ r.aabb.min.x + t → r.aabb.max.x + t ≤ bounds.max.x →
            |(r.nudge_inside bounds).center.x - r.center.x| ≤ |t|)
        ∧ (∀ t : ℚ, bounds.min.y ≤ r.aabb.min.y + t → r.aabb.max.y + t ≤ bounds.max.y →
            |(r.nudge_inside bounds).center.y - r.center.y| ≤ |t|)) := by
  constructor
  · intro hc
    simp [RotatedRect.nudge_inside, hc]
  · intro hx hy
    have hcond : ¬(r.aabb.size.x > bounds.size.x ∨ r.aabb.size.y > bounds.size.y) := by
      push_neg
      exact ⟨hx, hy⟩
    have hnudge : r.nudge_inside bounds
        = { r with center := nudge_aabb_with r.center r.aabb bounds } := by
      simp [RotatedRect.nudge_inside, hcond]
    have hshift := aabb_shift r (nudge_aabb_with r.center r.aabb bounds)
    have hcx : (nudge_aabb_with r.center r.aabb bounds).x
        = nudge1 r.aabb.min.x r.aabb.max.x bounds.min.x bounds.max.x r.center.x := rfl
    have hcy : (nudge_aabb_with r.center r.aabb bounds).y
        = nudge1 r.aabb.min.y r.aabb.max.y bounds.min.y bounds.max.y r.center.y := rfl
    have hsx : r.aabb.max.x - r.aabb.min.x ≤ bounds.max.x - bounds.min.x := by
      simp only [Rect.size, V2.sub_def] at hx
      exact hx
    have hsy : r.aabb.max.y - r.aabb.min.y ≤ bounds.max.y - bounds.min.y := by
      simp only [Rect.size, V2.sub_def] at hy
      exact hy
    have Hx := nudge1_spec r.aabb.min.x r.aabb.max.x bounds.min.x bounds.max.x r.center.x hsx
    have Hy := nudge1_spec r.aabb.min.y r.aabb.max.y bounds.min.y bounds.max.y r.center.y hsy
    rw [hnudge]
    refine ⟨⟨?_, ?_, ?_, ?_⟩, fun h1 h2 => ?_, fun h1 h2 => ?_,
      fun t h1 h2 => ?_, fun t h1 h2 => ?_⟩
    · rw [hshift.1, hcx]
      exact Hx.1.1
    · rw [hshift.2.1, hcx]
      exact Hx.1.2
    · rw [hshift.2.2.1, hcy]
      exact Hy.1.1
    · rw [hshift.2.2.2, hcy]
      exact Hy.1.2
    · show (nudge_aabb_with r.center r.aabb bounds).x = r.center.x
      rw [hcx]
      exact Hx.2.1 h1 h2
    · show (nudge_aabb_with r.center r.aabb bounds).y = r.center.y
      rw [hcy]
      exact Hy.2.1 h1 h2
    · show |(nudge_aabb_with r.center r.aabb bounds).x - r.center.x| ≤ |t|
      rw [hcx]
      exact Hx.2.2 t h1 h2
    · show |(nudge_aabb_with r.center r.aabb bounds).y - r.center.y| ≤ |t|
      rw [hcy]
      exact Hy.2.2 t h1 h2

/-- C6 witness: a 2×2 rect at the origin nudged into the bounds
`[1, 7] × [1, 9]` (which can contain it) ends with its aabb inside the
bounds. -/
theorem C6_nudge_inside_minimal_witness :
    (1 : ℚ) ≤ (RotatedRect.nudge_inside ⟨⟨0, 0⟩, ⟨2, 2⟩, Rot.id, 0, ⟨1, 1⟩, Option.none⟩
        ⟨⟨1, 1⟩, ⟨7, 9⟩⟩).aabb.min.x
    ∧ (RotatedRect.nudge_inside ⟨⟨0, 0⟩, ⟨2, 2⟩, Rot.id, 0, ⟨1, 1⟩, Option.none⟩
        ⟨⟨1, 1⟩, ⟨7, 9⟩⟩).aabb.max.x ≤ 7
    ∧ (1 : ℚ) ≤ (RotatedRect.nudge_inside ⟨⟨0, 0⟩, ⟨2, 2⟩, Rot.id, 0, ⟨1, 1⟩, Option.none⟩
        ⟨⟨1, 1⟩, ⟨7, 9⟩⟩).aabb.min.y
    ∧ (RotatedRect.nudge_inside ⟨⟨0, 0⟩, ⟨2, 2⟩, Rot.id, 0, ⟨1, 1⟩, Option.none⟩
        ⟨⟨1, 1⟩, ⟨7, 9⟩⟩).aabb.max.y ≤ 9 := by
  have h := (C6_nudge_inside_minimal ⟨⟨0, 0⟩, ⟨2, 2⟩, Rot.id, 0, ⟨1, 1⟩, Option.none⟩
      ⟨⟨1, 1⟩, ⟨7, 9⟩⟩).2
    (by norm_num [RotatedRect.aabb, RotatedRect.anchor, Rot.rotate, Rot.id,
      Anchor.BOTTOM_LEFT, Anchor.asVec, V2.smul, V2.cmin, V2.cmax, V2.add_def,
      V2.sub_def, V2.mul_def, Rect.size, min_def, max_def])
    (by norm_num [RotatedRect.aabb, RotatedRect.anchor, Rot.rotate, Rot.id,
      Anchor.BOTTOM_LEFT, Anchor.asVec, V2.smul, V2.cmin, V2.cmax, V2.add_def,
      V2.sub_def, V2.mul_def, Rect.size, min_def, max_def])
  exact h.1

end Rectray
